import Mathlib

/-!
Shallow embedding of the remote job execution and status-polling engine of
the zyphar-eda-mcp server (src/index.ts).

The server is TypeScript; its core is a handful of functions over strings
and a remote job directory: `getSSHKey` (lines 9-18), `runOnEC2` (20-65),
`startBackgroundJob` (118-133), `checkJobStatus` (144-200) and
`parseDesignStats` (202-214).  Each is translated below into a pure Lean
function.  JavaScript string operations (`trim`, `split`, `replace`,
regex prefix / substring tests) are modelled by explicit structural
recursions over character lists so that every definition evaluates by
`decide` / `rfl`.  External shell commands issued by the poller (`cat`,
`tail`, `kill -0`, `find`) are modelled by their documented semantics on
an abstract job-directory state.
-/

namespace Zyphar

/-! ## JavaScript string primitives -/

/-- Whitespace characters removed by JavaScript `String.prototype.trim`
(restricted to the ASCII whitespace that occurs in this system's data). -/
def isSpaceChar (c : Char) : Bool :=
  c = ' ' || c = '\t' || c = '\n' || c = '\r'

/-- Model of JavaScript `s.trim()`: strip leading and trailing whitespace. -/
def jsTrim (s : String) : String :=
  String.mk (((s.toList.dropWhile isSpaceChar).reverse.dropWhile isSpaceChar).reverse)

/-- Does `p` occur at the start of `cs`?  (Model of the regex test
`/^pat/.test(s)` used by the stats parser.) -/
def headMatches : List Char → List Char → Bool
  | [], _ => true
  | _ :: _, [] => false
  | p :: ps, c :: cs => p = c && headMatches ps cs

/-- `/^pat/.test(s)` for a literal pattern `pat`. -/
def strStartsWith (s pat : String) : Bool :=
  headMatches pat.toList s.toList

/-- Does `pat` occur anywhere in `cs`?  (Model of `/pat/.test(s)` for a
literal pattern, e.g. `/Flow completed/`.) -/
def occursIn : List Char → List Char → Bool
  | pat, [] => pat.isEmpty
  | pat, c :: cs => headMatches pat (c :: cs) || occursIn pat cs

/-- `/pat/.test(s)` as a substring test. -/
def strContains (s pat : String) : Bool :=
  occursIn pat.toList s.toList

/-- Replace the first occurrence of `pat` in `cs` by `repl` — the
semantics of JavaScript `String.prototype.replace` with a string pattern. -/
def replaceFirstList (pat repl : List Char) : List Char → List Char
  | [] => if headMatches pat [] then repl else []
  | c :: cs =>
    if headMatches pat (c :: cs) then repl ++ (c :: cs).drop pat.length
    else c :: replaceFirstList pat repl cs

/-- Model of JavaScript `s.replace(pat, repl)` (first occurrence only). -/
def jsReplace (s pat repl : String) : String :=
  String.mk (replaceFirstList pat.toList repl.toList s.toList)

/-- Split a character list at every occurrence of `sep`. -/
def splitCharAux (sep : Char) : List Char → List Char → List (List Char)
  | [], acc => [acc.reverse]
  | c :: cs, acc =>
    if c = sep then acc.reverse :: splitCharAux sep cs []
    else splitCharAux sep cs (c :: acc)

/-- Model of JavaScript `s.split(sep)` for a one-character separator. -/
def jsSplit (sep : Char) (s : String) : List String :=
  (splitCharAux sep s.toList []).map String.mk

/-- Join a list of strings with a separator — JavaScript `parts.join(sep)`. -/
def joinWith (sep : String) : List String → String
  | [] => ""
  | [s] => s
  | s :: rest => s ++ sep ++ joinWith sep rest

/-- Model of JavaScript `xs.slice(-n)`: the last `n` elements (all of
`xs` when it has fewer than `n`). -/
def lastSlice (n : Nat) (xs : List String) : List String :=
  xs.drop (xs.length - n)

/-- Model of the Unix command `tail -n` applied to a file with the given
content: the last `n` lines, where a line is a maximal newline-terminated
(or final unterminated) segment. -/
def tailLines (n : Nat) (content : String) : String :=
  if content.toList.getLast? = some '\n' then
    let ls := jsSplit '\n' (String.mk content.toList.dropLast)
    joinWith "\n" (ls.drop (ls.length - n)) ++ "\n"
  else
    let ls := jsSplit '\n' content
    joinWith "\n" (ls.drop (ls.length - n))

/-! ## Stats parser (src/index.ts, `parseDesignStats`, lines 202-214)

The TypeScript function builds a `Record<string, string>` with at most the
keys `cells`, `area`, `wns`, `instances`, `duration`, `status`; we model
the record as a structure of optional fields (a missing key is `none`). -/

structure DesignStats where
  cells : Option String := none
  area : Option String := none
  wns : Option String := none
  instances : Option String := none
  duration : Option String := none
  status : Option String := none
deriving DecidableEq, Repr

/-- `if (/^Cells:/.test(trimmed)) stats.cells = trimmed.replace("Cells:", "").trim();` -/
def applyCells (t : String) (st : DesignStats) : DesignStats :=
  if strStartsWith t "Cells:" then { st with cells := some (jsTrim (jsReplace t "Cells:" "")) } else st

/-- `if (/^Area:/.test(trimmed)) stats.area = trimmed.replace("Area:", "").trim();` -/
def applyArea (t : String) (st : DesignStats) : DesignStats :=
  if strStartsWith t "Area:" then { st with area := some (jsTrim (jsReplace t "Area:" "")) } else st

/-- `if (/^WNS:/.test(trimmed)) stats.wns = trimmed.replace("WNS:", "").trim();` -/
def applyWns (t : String) (st : DesignStats) : DesignStats :=
  if strStartsWith t "WNS:" then { st with wns := some (jsTrim (jsReplace t "WNS:" "")) } else st

/-- `if (/^Instances:/.test(trimmed)) stats.instances = trimmed.replace("Instances:", "").trim();` -/
def applyInstances (t : String) (st : DesignStats) : DesignStats :=
  if strStartsWith t "Instances:" then { st with instances := some (jsTrim (jsReplace t "Instances:" "")) } else st

/-- `if (/^Duration:/.test(trimmed)) stats.duration = trimmed.replace("Duration:", "").trim();` -/
def applyDuration (t : String) (st : DesignStats) : DesignStats :=
  if strStartsWith t "Duration:" then { st with duration := some (jsTrim (jsReplace t "Duration:" "")) } else st

/-- `if (/Flow completed/.test(trimmed)) stats.status = "completed";` -/
def applyStatus (t : String) (st : DesignStats) : DesignStats :=
  if strContains t "Flow completed" then { st with status := some "completed" } else st

/-- One iteration of the `for (const line of output.split("\n"))` loop. -/
def parseLine (st : DesignStats) (line : String) : DesignStats :=
  let t := jsTrim line
  applyStatus t (applyDuration t (applyInstances t (applyWns t (applyArea t (applyCells t st)))))

/-- The parser's loop over an explicit list of lines. -/
def parseDesignStatsLines (lines : List String) : DesignStats :=
  lines.foldl parseLine {}

/-- `parseDesignStats` (src/index.ts lines 202-214). -/
def parseDesignStats (output : String) : DesignStats :=
  parseDesignStatsLines (jsSplit '\n' output)

/-! ## Status poller (src/index.ts, `checkJobStatus`, lines 144-200)

`checkJobStatus` interrogates the remote job directory through a sequence
of shell commands over `runOnEC2`.  We model the observable remote state
of one job directory at the instant of a poll, together with the outcome
of the two fallible probe calls whose exceptions the function catches. -/

inductive JobState where
  | running
  | completed
  | failed
deriving DecidableEq, Repr

/-- The `JobStatus` interface (src/index.ts lines 135-142).  `meta` is
declared in the interface but never set by `checkJobStatus`. -/
structure JobStatus where
  state : JobState
  elapsedSeconds : Int
  output : Option String := none
  stats : Option DesignStats := none
  hasGds : Option Bool := none
deriving DecidableEq, Repr

/-- Observable remote state of a job directory during one poll.

* `metaStartTime` — the `startTime` field recovered from `jobDir/meta.json`:
  `some t` when the file is readable, parses as JSON and carries a truthy
  `startTime`; `none` when the file is missing, unreadable, unparsable or
  lacks the field (all of which make the code fall back to `Date.now()`).
* `exitCodeFile` — raw content of `jobDir/exit_code`; `none` = file absent.
* `pidFile` — raw content of `jobDir/pid`; `none` = file absent
  (`cat ... || echo ""` then yields the empty string).
* `pidReadOk` — whether the `cat jobDir/pid` call itself succeeded
  (`false` models a thrown, caught transport error at line 165).
* `probeResult` — outcome of `kill -0 <pid>`: `some true` = the probe ran
  and printed `ALIVE`, `some false` = it printed `DEAD`, `none` = the call
  threw (caught at line 170).
* `tailReadOk` — whether the `tail -20 jobDir/output.log` call at
  line 175 succeeded (its exception is caught at line 177).
* `outputLog` — content of `jobDir/output.log`; `none` = file absent.
* `gdsFind` — outcome of the `find jobDir/output -name "*.gds"` call at
  line 195: `some b` = it ran and `b` says whether it printed a path,
  `none` = it threw (the `.catch` at line 197 yields `false`). -/
structure JobFS where
  metaStartTime : Option Int := none
  exitCodeFile : Option String := none
  pidFile : Option String := none
  pidReadOk : Bool := true
  probeResult : Option Bool := none
  tailReadOk : Bool := true
  outputLog : Option String := none
  gdsFind : Option Bool := some false
deriving DecidableEq, Repr

/-- The `processAlive` flag computed at src/index.ts lines 162-170: it
starts `false` and becomes `true` only when the pid file was read
successfully, its trimmed content is nonempty, and the `kill -0` probe ran
and printed `ALIVE`.  Every caught exception leaves it `false`. -/
def processAlive (fs : JobFS) : Bool :=
  if fs.pidReadOk then
    let pidRaw := jsTrim (fs.pidFile.getD "")
    if pidRaw ≠ "" then
      match fs.probeResult with
      | some b => b
      | none => false
    else false
  else false

/-- `Math.round((now - startTime) / 1000)` on integer milliseconds:
JavaScript `Math.round x = ⌊x + 1/2⌋`. -/
def elapsedSecondsOf (now startTime : Int) : Int :=
  Int.fdiv (now - startTime + 500) 1000

/-- `checkJobStatus` (src/index.ts lines 144-200), as a function of the
poll instant `now` (the code reads `Date.now()`; the two reads are
milliseconds apart and are merged into one parameter) and the observable
remote state `fs`.  Shell idioms are translated by their semantics:
`[ -f exit_code ] && echo "DONE:$(cat exit_code)" || echo "RUNNING"`
yields `DONE:` followed by the file content exactly when the marker file
exists, so after `.replace("DONE:", "").trim()` the parsed exit code is
the trimmed file content. -/
def checkJobStatus (now : Int) (fs : JobFS) : JobStatus :=
  let startTime := fs.metaStartTime.getD now
  let elapsed := elapsedSecondsOf now startTime
  match fs.exitCodeFile with
  | none =>
    -- exitCheck === "RUNNING": the marker file does not exist
    if !processAlive fs then
      if fs.tailReadOk then
        let tailLog := tailLines 20 (fs.outputLog.getD "No log file")
        { state := .failed, elapsedSeconds := elapsed,
          output := some ("Process died unexpectedly.\nLast log lines:\n" ++ jsTrim tailLog) }
      else
        { state := .failed, elapsedSeconds := elapsed,
          output := some "Process died unexpectedly. No log available." }
    else
      { state := .running, elapsedSeconds := elapsed }
  | some raw =>
    let exitCode := jsTrim raw
    let output := fs.outputLog.getD ""
    if exitCode ≠ "0" then
      let lastLines := joinWith "\n" (lastSlice 30 (jsSplit '\n' output))
      { state := .failed, elapsedSeconds := elapsed,
        output := some ("Exit code " ++ exitCode ++ ".\n" ++ lastLines) }
    else
      { state := .completed, elapsedSeconds := elapsed,
        output := some output, stats := some (parseDesignStats output),
        hasGds := some (fs.gdsFind.getD false) }

/-! ## Remote channel (src/index.ts, `runOnEC2`, lines 20-65)

`runOnEC2` wires four event handlers: connection error → reject; exec
callback error → reject; stream/stderr `data` → append to one combined
`output` string; stream `close` before the timer fires → resolve with the
accumulated output (the `close` event's exit-status payload is not even
bound); timer fires first → reject with a timeout error.  A single run of
the promise is one of those mutually exclusive outcomes, which we model
as a scenario value fed to the handler logic. -/

inductive ExecEvent where
  | stdout (s : String)
  | stderr (s : String)
deriving DecidableEq, Repr

/-- The combined `output` accumulator: both `data` handlers append the
chunk text in arrival order (lines 38-43). -/
def combinedOutput (events : List ExecEvent) : String :=
  events.foldl (fun acc e => match e with
    | .stdout s => acc ++ s
    | .stderr s => acc ++ s) ""

/-- Which of the mutually exclusive channel outcomes occurred.
`closed events exitStatus` means the connection and exec succeeded and the
stream closed before the timeout, after delivering `events`, with the
remote command exiting with status `exitStatus`. -/
inductive ChannelScenario where
  | connectError (msg : String)
  | execError (msg : String)
  | timedOut (events : List ExecEvent)
  | closed (events : List ExecEvent) (exitStatus : Int)
deriving DecidableEq, Repr

inductive ChannelError where
  | connectionFailed (msg : String)
  | execFailed (msg : String)
  | timeout (timeoutMs : Int)
deriving DecidableEq, Repr

/-- `runOnEC2` (src/index.ts lines 20-65): the promise's settlement as a
function of the channel scenario. -/
def runOnEC2 (timeoutMs : Int) (sc : ChannelScenario) : Except ChannelError String :=
  match sc with
  | .connectError msg => .error (.connectionFailed msg)
  | .execError msg => .error (.execFailed msg)
  | .timedOut _ => .error (.timeout timeoutMs)
  | .closed events _exitStatus => .ok (combinedOutput events)

/-! ## Job launcher (src/index.ts, `startBackgroundJob`, lines 118-133)

The launcher awaits three `runOnEC2` calls in sequence.  We model the run
as the ordered list of remote actions it performs, plus its return value.
`pid` is the text printed by `echo $!` in the second command. -/

/-- One remote command issued by the launcher, with its payload. -/
inductive LaunchAction where
  /-- `mkdir -p jobDir/output && echo 'metaJson' > jobDir/meta.json`:
  creates the output directory (and the job directory, `-p`) and writes
  the metadata record `{...meta, startTime, status}`. -/
  | ensureDirAndWriteMeta (jobDir : String) (meta : List (String × String))
      (startTime : Int) (status : String)
  /-- `nohup bash -c '<env> && cmd > jobDir/output.log 2>&1; echo $? > jobDir/exit_code' > /dev/null 2>&1 & echo $!`:
  spawns the wrapped command detached. -/
  | spawnDetached (jobDir : String) (cmd : String)
  /-- `echo 'pid' > jobDir/pid`: persists the spawned process id. -/
  | writePidFile (jobDir : String) (pid : String)
deriving DecidableEq, Repr

/-- `jobDir.split("/").pop() || "unknown"` (line 123). -/
def jobIdOf (jobDir : String) : String :=
  match (jsSplit '/' jobDir).getLast? with
  | some s => if s = "" then "unknown" else s
  | none => "unknown"

/-- `startBackgroundJob` (src/index.ts lines 118-133): the ordered action
trace and the returned `{jobId, jobDir}`. -/
def startBackgroundJob (now : Int) (jobDir cmd : String)
    (meta : List (String × String)) (pid : String) :
    List LaunchAction × String × String :=
  ([LaunchAction.ensureDirAndWriteMeta jobDir meta now "running",
    LaunchAction.spawnDetached jobDir cmd,
    LaunchAction.writePidFile jobDir pid],
   jobIdOf jobDir, jobDir)

/-- Abstract remote filesystem: which directories and files exist. -/
structure RemoteDirState where
  dirs : List String := []
  files : List String := []
deriving DecidableEq, Repr

/-- Effect of one launch action on the remote filesystem, from the
semantics of the underlying shell commands (`mkdir -p` creates the job
directory and its `output` subdirectory; the redirections create
`meta.json` and `pid`; the spawn itself touches nothing synchronously —
its redirections are performed later by the detached process). -/
def applyLaunchAction (st : RemoteDirState) : LaunchAction → RemoteDirState
  | .ensureDirAndWriteMeta jobDir _ _ _ =>
    { st with dirs := jobDir :: (jobDir ++ "/output") :: st.dirs,
              files := (jobDir ++ "/meta.json") :: st.files }
  | .spawnDetached _ _ => st
  | .writePidFile jobDir _ => { st with files := (jobDir ++ "/pid") :: st.files }

/-- Run a prefix of the launcher's action trace over the remote filesystem. -/
def applyLaunchTrace (st : RemoteDirState) (tr : List LaunchAction) : RemoteDirState :=
  tr.foldl applyLaunchAction st

/-! ## Credential resolution (src/index.ts, `getSSHKey`, lines 9-18) -/

/-- The three environment variables consulted; `none` = unset.  JavaScript
truthiness makes the empty string equivalent to unset. -/
structure SSHEnv where
  sshPrivateKeyB64 : Option String := none
  sshPrivateKey : Option String := none
  sshKeyPath : Option String := none
deriving DecidableEq, Repr

/-- JavaScript truthiness of an optional environment string. -/
def envTruthy : Option String → Option String
  | some s => if s = "" then none else some s
  | none => none

inductive AuthError where
  /-- `readFileSync` threw: the key file at this path is missing/unreadable. -/
  | keyFileUnreadable (path : String)
deriving DecidableEq, Repr

/-- `getSSHKey` (src/index.ts lines 9-18).  `decodeB64` models
`Buffer.from(s, "base64").toString("utf-8")` (an external total decoder);
`readFile` models `readFileSync` (`none` = it throws). -/
def getSSHKey (decodeB64 : String → String) (readFile : String → Option String)
    (env : SSHEnv) : Except AuthError String :=
  match envTruthy env.sshPrivateKeyB64 with
  | some s => .ok (decodeB64 s)
  | none =>
    match envTruthy env.sshPrivateKey with
    | some s => .ok s
    | none =>
      let keyPath := (envTruthy env.sshKeyPath).getD "/Users/yeabsirateshome/.ssh/Zyphar.pem"
      match readFile keyPath with
      | some content => .ok content
      | none => .error (.keyFileUnreadable keyPath)

/-- Evolution constraint between two polls of the same job directory: the
exit-code marker, once written by the detached wrapper, persists (nothing
in the system removes it; the wrapper writes it once, after the job
terminates). -/
def markerPersists (fs fs' : JobFS) : Prop :=
  fs.exitCodeFile.isSome = true → fs'.exitCodeFile = fs.exitCodeFile

instance (fs fs' : JobFS) : Decidable (markerPersists fs fs') := by
  unfold markerPersists; infer_instance

/-! ## Parser fields and helper lemmas -/

/-- The five fields filled by a line-prefix pattern (the sixth key,
`status`, is set by a substring marker, not a prefix pattern). -/
inductive StatField where
  | cells
  | area
  | wns
  | instances
  | duration
deriving DecidableEq, Repr

/-- The line-prefix pattern of each field, from the regex table at
src/index.ts lines 206-210. -/
def fieldPat : StatField → String
  | .cells => "Cells:"
  | .area => "Area:"
  | .wns => "WNS:"
  | .instances => "Instances:"
  | .duration => "Duration:"

/-- Project one field out of the sparse stats record. -/
def getField (st : DesignStats) : StatField → Option String
  | .cells => st.cells
  | .area => st.area
  | .wns => st.wns
  | .instances => st.instances
  | .duration => st.duration

/-- Does `line` match `f`'s prefix pattern (after the loop's `trim`)? -/
def fieldMatches (f : StatField) (line : String) : Bool :=
  strStartsWith (jsTrim line) (fieldPat f)

/-- The value the parser extracts from a matching line:
`trimmed.replace(pat, "").trim()`. -/
def fieldValue (f : StatField) (line : String) : String :=
  jsTrim (jsReplace (jsTrim line) (fieldPat f) "")

@[simp] theorem applyArea_cells (t : String) (st : DesignStats) :
    (applyArea t st).cells = st.cells := by unfold applyArea; split <;> rfl

@[simp] theorem applyWns_cells (t : String) (st : DesignStats) :
    (applyWns t st).cells = st.cells := by unfold applyWns; split <;> rfl

@[simp] theorem applyInstances_cells (t : String) (st : DesignStats) :
    (applyInstances t st).cells = st.cells := by unfold applyInstances; split <;> rfl

@[simp] theorem applyDuration_cells (t : String) (st : DesignStats) :
    (applyDuration t st).cells = st.cells := by unfold applyDuration; split <;> rfl

@[simp] theorem applyStatus_cells (t : String) (st : DesignStats) :
    (applyStatus t st).cells = st.cells := by unfold applyStatus; split <;> rfl

@[simp] theorem applyCells_area (t : String) (st : DesignStats) :
    (applyCells t st).area = st.area := by unfold applyCells; split <;> rfl

@[simp] theorem applyWns_area (t : String) (st : DesignStats) :
    (applyWns t st).area = st.area := by unfold applyWns; split <;> rfl

@[simp] theorem applyInstances_area (t : String) (st : DesignStats) :
    (applyInstances t st).area = st.area := by unfold applyInstances; split <;> rfl

@[simp] theorem applyDuration_area (t : String) (st : DesignStats) :
    (applyDuration t st).area = st.area := by unfold applyDuration; split <;> rfl

@[simp] theorem applyStatus_area (t : String) (st : DesignStats) :
    (applyStatus t st).area = st.area := by unfold applyStatus; split <;> rfl

@[simp] theorem applyCells_wns (t : String) (st : DesignStats) :
    (applyCells t st).wns = st.wns := by unfold applyCells; split <;> rfl

@[simp] theorem applyArea_wns (t : String) (st : DesignStats) :
    (applyArea t st).wns = st.wns := by unfold applyArea; split <;> rfl

@[simp] theorem applyInstances_wns (t : String) (st : DesignStats) :
    (applyInstances t st).wns = st.wns := by unfold applyInstances; split <;> rfl

@[simp] theorem applyDuration_wns (t : String) (st : DesignStats) :
    (applyDuration t st).wns = st.wns := by unfold applyDuration; split <;> rfl

@[simp] theorem applyStatus_wns (t : String) (st : DesignStats) :
    (applyStatus t st).wns = st.wns := by unfold applyStatus; split <;> rfl

@[simp] theorem applyCells_instances (t : String) (st : DesignStats) :
    (applyCells t st).instances = st.instances := by unfold applyCells; split <;> rfl

@[simp] theorem applyArea_instances (t : String) (st : DesignStats) :
    (applyArea t st).instances = st.instances := by unfold applyArea; split <;> rfl

@[simp] theorem applyWns_instances (t : String) (st : DesignStats) :
    (applyWns t st).instances = st.instances := by unfold applyWns; split <;> rfl

@[simp] theorem applyDuration_instances (t : String) (st : DesignStats) :
    (applyDuration t st).instances = st.instances := by unfold applyDuration; split <;> rfl

@[simp] theorem applyStatus_instances (t : String) (st : DesignStats) :
    (applyStatus t st).instances = st.instances := by unfold applyStatus; split <;> rfl

@[simp] theorem applyCells_duration (t : String) (st : DesignStats) :
    (applyCells t st).duration = st.duration := by unfold applyCells; split <;> rfl

@[simp] theorem applyArea_duration (t : String) (st : DesignStats) :
    (applyArea t st).duration = st.duration := by unfold applyArea; split <;> rfl

@[simp] theorem applyWns_duration (t : String) (st : DesignStats) :
    (applyWns t st).duration = st.duration := by unfold applyWns; split <;> rfl

@[simp] theorem applyInstances_duration (t : String) (st : DesignStats) :
    (applyInstances t st).duration = st.duration := by unfold applyInstances; split <;> rfl

@[simp] theorem applyStatus_duration (t : String) (st : DesignStats) :
    (applyStatus t st).duration = st.duration := by unfold applyStatus; split <;> rfl

/-- A line matching `f`'s pattern sets `f`'s field to the extracted value,
whatever the incoming record holds. -/
theorem getField_parseLine_of_match (f : StatField) (st : DesignStats) (line : String)
    (h : fieldMatches f line = true) :
    getField (parseLine st line) f = some (fieldValue f line) := by
  cases f
  case cells =>
    simp only [fieldMatches, fieldPat] at h
    simp only [parseLine, getField, fieldValue, fieldPat, applyStatus_cells,
      applyDuration_cells, applyInstances_cells, applyWns_cells, applyArea_cells]
    simp [applyCells, h]
  case area =>
    simp only [fieldMatches, fieldPat] at h
    simp only [parseLine, getField, fieldValue, fieldPat, applyStatus_area,
      applyDuration_area, applyInstances_area, applyWns_area]
    simp [applyArea, applyCells_area, h]
  case wns =>
    simp only [fieldMatches, fieldPat] at h
    simp only [parseLine, getField, fieldValue, fieldPat, applyStatus_wns,
      applyDuration_wns, applyInstances_wns]
    simp [applyWns, applyArea_wns, applyCells_wns, h]
  case instances =>
    simp only [fieldMatches, fieldPat] at h
    simp only [parseLine, getField, fieldValue, fieldPat, applyStatus_instances,
      applyDuration_instances]
    simp [applyInstances, applyWns_instances, applyArea_instances, applyCells_instances, h]
  case duration =>
    simp only [fieldMatches, fieldPat] at h
    simp only [parseLine, getField, fieldValue, fieldPat, applyStatus_duration]
    simp [applyDuration, applyInstances_duration, applyWns_duration, applyArea_duration,
      applyCells_duration, h]

/-- A line not matching `f`'s pattern leaves `f`'s field unchanged. -/
theorem getField_parseLine_of_no_match (f : StatField) (st : DesignStats) (line : String)
    (h : fieldMatches f line = false) :
    getField (parseLine st line) f = getField st f := by
  cases f
  case cells =>
    simp only [fieldMatches, fieldPat] at h
    simp only [parseLine, getField, applyStatus_cells, applyDuration_cells,
      applyInstances_cells, applyWns_cells, applyArea_cells]
    simp [applyCells, h]
  case area =>
    simp only [fieldMatches, fieldPat] at h
    simp only [parseLine, getField, applyStatus_area, applyDuration_area,
      applyInstances_area, applyWns_area]
    simp [applyArea, applyCells_area, h]
  case wns =>
    simp only [fieldMatches, fieldPat] at h
    simp only [parseLine, getField, applyStatus_wns, applyDuration_wns, applyInstances_wns]
    simp [applyWns, applyArea_wns, applyCells_wns, h]
  case instances =>
    simp only [fieldMatches, fieldPat] at h
    simp only [parseLine, getField, applyStatus_instances, applyDuration_instances]
    simp [applyInstances, applyWns_instances, applyArea_instances, applyCells_instances, h]
  case duration =>
    simp only [fieldMatches, fieldPat] at h
    simp only [parseLine, getField, applyStatus_duration]
    simp [applyDuration, applyInstances_duration, applyWns_duration, applyArea_duration,
      applyCells_duration, h]

/-- Folding the parser over lines none of which match `f` preserves `f`'s
field. -/
theorem getField_foldl_of_no_match (f : StatField) (ls : List String)
    (hls : ∀ l ∈ ls, fieldMatches f l = false) :
    ∀ st : DesignStats, getField (ls.foldl parseLine st) f = getField st f := by
  induction ls with
  | nil => intro st; rfl
  | cons l ls ih =>
    intro st
    have hl : fieldMatches f l = false := hls l (List.mem_cons_self l ls)
    have hrest : ∀ l' ∈ ls, fieldMatches f l' = false :=
      fun l' hmem => hls l' (List.mem_cons_of_mem l hmem)
    simp only [List.foldl_cons]
    rw [ih hrest, getField_parseLine_of_no_match f st l hl]

/-! ## Status poller helper lemmas -/

/-- A conclusively dead probe (`kill -0` printed `DEAD`) forces
`processAlive = false`, whatever the other fields hold. -/
theorem processAlive_of_probe_dead (fs : JobFS) (hprobe : fs.probeResult = some false) :
    processAlive fs = false := by
  obtain ⟨mst, ecf, pf, pro, prb, tro, ol, gf⟩ := fs
  dsimp only at hprobe
  subst hprobe
  cases pro <;> simp [processAlive]

/-- Every inconclusive liveness probe — the pid-file read threw, the pid
file was missing or empty, or the probe call threw — leaves
`processAlive = false`. -/
theorem processAlive_of_inconclusive (fs : JobFS)
    (hinc : fs.pidReadOk = false ∨ jsTrim (fs.pidFile.getD "") = "" ∨ fs.probeResult = none) :
    processAlive fs = false := by
  obtain ⟨mst, ecf, pf, pro, prb, tro, ol, gf⟩ := fs
  dsimp only at hinc
  rcases hinc with h | h | h
  · subst h; rfl
  · cases pro <;> simp [processAlive, h]
  · subst h; cases pro <;> simp [processAlive]

/-- `checkJobStatus` reports RUNNING exactly when the exit-code marker is
absent and the liveness probe conclusively reported the pid alive. -/
theorem checkJobStatus_running_iff (now : Int) (fs : JobFS) :
    (checkJobStatus now fs).state = JobState.running ↔
      fs.exitCodeFile = none ∧ processAlive fs = true := by
  obtain ⟨mst, ecf, pf, pro, prb, tro, ol, gf⟩ := fs
  cases ecf with
  | none =>
    cases hp : processAlive ⟨mst, none, pf, pro, prb, tro, ol, gf⟩ with
    | false => simp [checkJobStatus, hp, apply_ite]
    | true => simp [checkJobStatus, hp]
  | some raw =>
    by_cases hr : jsTrim raw = "0" <;> simp [checkJobStatus, hr]

/-! ## Claims -/

/-- Claim C1: when the exit-code marker file is present, the poller
returns COMPLETED if the marker's (trimmed) content is `"0"`, and for any
other content returns FAILED with a diagnostic that states that exit code
and carries the tail (last 30 lines) of the log. -/
theorem exitMarker_mapping (now : Int) (fs : JobFS) (raw : String)
    (hmark : fs.exitCodeFile = some raw) :
    (jsTrim raw = "0" → (checkJobStatus now fs).state = JobState.completed) ∧
    (jsTrim raw ≠ "0" →
      (checkJobStatus now fs).state = JobState.failed ∧
      (checkJobStatus now fs).output =
        some ("Exit code " ++ jsTrim raw ++ ".\n" ++
          joinWith "\n" (lastSlice 30 (jsSplit '\n' (fs.outputLog.getD ""))))) := by
  unfold checkJobStatus
  simp only [hmark]
  constructor
  · intro h; simp [h]
  · intro h; simp [h]

/-- Witness for C1: a marker holding `0` yields COMPLETED; a marker
holding `7` yields FAILED. -/
theorem exitMarker_mapping_witness :
    (checkJobStatus 5000 ({ exitCodeFile := some "0\n" } : JobFS)).state = JobState.completed ∧
    (checkJobStatus 5000 ({ exitCodeFile := some "7\n", outputLog := some "boom" } : JobFS)).state
      = JobState.failed := by
  constructor
  · exact (exitMarker_mapping 5000 ({ exitCodeFile := some "0\n" } : JobFS) "0\n" rfl).1 (by decide)
  · exact ((exitMarker_mapping 5000
      ({ exitCodeFile := some "7\n", outputLog := some "boom" } : JobFS) "7\n" rfl).2 (by decide)).1

/-- Counterexample to claim C2 as stated: with the exit-code marker absent
and the liveness probe inconclusive with no evidence of death — the pid
record missing (first poll) or the probe call itself having thrown (second
poll) — `checkJobStatus` returns FAILED, not RUNNING. -/
theorem inconclusive_probe_counterexample :
    (checkJobStatus 0
        ({ exitCodeFile := none, pidFile := none, outputLog := some "some log text" } :
          JobFS)).state ≠ JobState.running ∧
    (checkJobStatus 0
        ({ exitCodeFile := none, pidFile := none, outputLog := some "some log text" } :
          JobFS)).state = JobState.failed ∧
    (checkJobStatus 0
        ({ exitCodeFile := none, pidFile := some "4242", probeResult := none,
           outputLog := some "some log text" } : JobFS)).state = JobState.failed := by
  decide

/-- Claim C2 as amended: when the exit-code marker is absent and the
liveness probe is inconclusive (the pid record is missing or unreadable,
or the probe itself fails), the poller returns FAILED — it treats the
absence of a conclusive ALIVE as death; RUNNING is returned only on a
conclusive ALIVE. -/
theorem inconclusive_probe_failed (now : Int) (fs : JobFS)
    (hmark : fs.exitCodeFile = none)
    (hinc : fs.pidReadOk = false ∨ jsTrim (fs.pidFile.getD "") = "" ∨ fs.probeResult = none) :
    (checkJobStatus now fs).state = JobState.failed := by
  have hdead := processAlive_of_inconclusive fs hinc
  obtain ⟨mst, ecf, pf, pro, prb, tro, ol, gf⟩ := fs
  dsimp only at hmark hdead
  subst hmark
  simp [checkJobStatus, hdead, apply_ite]

/-- Witness for the amended C2: a job directory with no marker and no pid
record polls as FAILED. -/
theorem inconclusive_probe_failed_witness :
    (checkJobStatus 0 ({ exitCodeFile := none, pidFile := none } : JobFS)).state
      = JobState.failed :=
  inconclusive_probe_failed 0 ({ exitCodeFile := none, pidFile := none } : JobFS) rfl
    (Or.inr (Or.inl (by decide)))

/-- Claim C3: when the exit-code marker is absent and the recorded pid is
probed and found not alive, the poller returns FAILED — never RUNNING —
and (whenever the log tail could be read) the diagnostic carries the tail
(last 20 lines) of the job's log. -/
theorem probe_death_failed (now : Int) (fs : JobFS) (log : String)
    (hmark : fs.exitCodeFile = none)
    (hprobe : fs.probeResult = some false) :
    (checkJobStatus now fs).state = JobState.failed ∧
    (fs.tailReadOk = true → fs.outputLog = some log →
      (checkJobStatus now fs).output =
        some ("Process died unexpectedly.\nLast log lines:\n" ++ jsTrim (tailLines 20 log))) := by
  have hdead : processAlive fs = false := processAlive_of_probe_dead fs hprobe
  obtain ⟨mst, ecf, pf, pro, prb, tro, ol, gf⟩ := fs
  dsimp only at hmark hprobe hdead
  subst hmark hprobe
  constructor
  · simp [checkJobStatus, hdead, apply_ite]
  · intro ht hl
    dsimp only at ht hl
    subst ht hl
    simp [checkJobStatus, hdead]

/-- Witness for C3: a dead pid with no marker polls as FAILED with the
log tail in the diagnostic. -/
theorem probe_death_failed_witness :
    (checkJobStatus 0
        ({ exitCodeFile := none, pidFile := some "77", probeResult := some false,
           outputLog := some "l1\nl2" } : JobFS)).state = JobState.failed ∧
    (checkJobStatus 0
        ({ exitCodeFile := none, pidFile := some "77", probeResult := some false,
           outputLog := some "l1\nl2" } : JobFS)).output =
      some ("Process died unexpectedly.\nLast log lines:\n" ++ jsTrim (tailLines 20 "l1\nl2")) := by
  refine ⟨(probe_death_failed 0 _ "l1\nl2" rfl rfl).1, (probe_death_failed 0 _ "l1\nl2" rfl rfl).2 rfl rfl⟩

/-- Counterexample to claim C4 as stated: two successive polls of one job
(the marker absent and persisting between them, the pid record unchanged):
the first poll's probe call throws, so the poll reports FAILED; the second
poll's probe conclusively reports the pid alive, so the poll reports
RUNNING — a terminal verdict followed by RUNNING. -/
theorem terminal_then_running_counterexample :
    (checkJobStatus 0
        ({ exitCodeFile := none, pidFile := some "4242", probeResult := none,
           outputLog := some "l" } : JobFS)).state = JobState.failed ∧
    (checkJobStatus 1000
        ({ exitCodeFile := none, pidFile := some "4242", probeResult := some true,
           outputLog := some "l" } : JobFS)).state = JobState.running ∧
    markerPersists
      ({ exitCodeFile := none, pidFile := some "4242", probeResult := none,
         outputLog := some "l" } : JobFS)
      ({ exitCodeFile := none, pidFile := some "4242", probeResult := some true,
         outputLog := some "l" } : JobFS) := by
  decide

/-- Claim C4 as amended: with the exit-code marker persisting between
polls, once a poll returns COMPLETED or FAILED a later poll can return
RUNNING only in one situation: the marker was absent at both polls, the
earlier poll's liveness probe did not conclusively report the pid alive,
and the later poll's probe did.  In particular a COMPLETED or FAILED
verdict reached through a present marker is never followed by RUNNING. -/
theorem terminal_then_running_characterization (now now' : Int) (fs fs' : JobFS)
    (hpersist : markerPersists fs fs')
    (hterm : (checkJobStatus now fs).state ≠ JobState.running)
    (hrun : (checkJobStatus now' fs').state = JobState.running) :
    fs.exitCodeFile = none ∧ fs'.exitCodeFile = none ∧
    processAlive fs = false ∧ processAlive fs' = true := by
  have h2 := (checkJobStatus_running_iff now' fs').mp hrun
  have hmark : fs.exitCodeFile = none := by
    by_contra hc
    have hsome : fs.exitCodeFile.isSome = true := Option.ne_none_iff_isSome.mp hc
    have hkeep := hpersist hsome
    rw [h2.1] at hkeep
    exact hc hkeep.symm
  have halive : processAlive fs = false := by
    cases hp : processAlive fs with
    | false => rfl
    | true => exact (hterm ((checkJobStatus_running_iff now fs).mpr ⟨hmark, hp⟩)).elim
  exact ⟨hmark, h2.1, halive, h2.2⟩

/-- Witness for the amended C4, at the concrete poll pair of the
counterexample situation. -/
theorem terminal_then_running_characterization_witness :
    ({ exitCodeFile := none, pidFile := some "9", probeResult := none } : JobFS).exitCodeFile
        = none ∧
    ({ exitCodeFile := none, pidFile := some "9", probeResult := some true } : JobFS).exitCodeFile
        = none ∧
    processAlive ({ exitCodeFile := none, pidFile := some "9", probeResult := none } : JobFS)
        = false ∧
    processAlive ({ exitCodeFile := none, pidFile := some "9", probeResult := some true } : JobFS)
        = true :=
  terminal_then_running_characterization 0 500
    ({ exitCodeFile := none, pidFile := some "9", probeResult := none } : JobFS)
    ({ exitCodeFile := none, pidFile := some "9", probeResult := some true } : JobFS)
    (by decide) (by decide) (by decide)

/-- Claim C5: two polls between which the observable remote job state is
unchanged agree on state, parsed stats, output text and the artifact flag
— the poll instant influences only the elapsed-seconds field.  (That
polling mutates nothing is structural in this embedding: every command the
poller issues — `cat`, a `[ -f ]` test, `kill -0`, `tail`, `find` — is a
read-only query of `fs`.) -/
theorem status_poll_deterministic (now now' : Int) (fs : JobFS) :
    (checkJobStatus now fs).state = (checkJobStatus now' fs).state ∧
    (checkJobStatus now fs).stats = (checkJobStatus now' fs).stats ∧
    (checkJobStatus now fs).output = (checkJobStatus now' fs).output ∧
    (checkJobStatus now fs).hasGds = (checkJobStatus now' fs).hasGds := by
  obtain ⟨mst, ecf, pf, pro, prb, tro, ol, gf⟩ := fs
  cases ecf with
  | none =>
    cases hp : processAlive ⟨mst, none, pf, pro, prb, tro, ol, gf⟩ <;>
      cases tro <;> simp [checkJobStatus, hp]
  | some raw =>
    by_cases hr : jsTrim raw = "0" <;> simp [checkJobStatus, hr]

/-- Claim C6: whenever the connection succeeds and the command's stream
closes within the timeout, `runOnEC2` resolves with the combined
stdout+stderr text accumulated in arrival order, for every remote exit
status — a nonzero status is never surfaced as an error (the settlement
does not depend on the status at all). -/
theorem runOnEC2_close_resolves (timeoutMs : Int) (events : List ExecEvent) (st st' : Int) :
    runOnEC2 timeoutMs (ChannelScenario.closed events st) =
      Except.ok (combinedOutput events) ∧
    runOnEC2 timeoutMs (ChannelScenario.closed events st) =
      runOnEC2 timeoutMs (ChannelScenario.closed events st') :=
  ⟨rfl, rfl⟩

/-- Claim C7: the parser maps the canonical log — the four metric lines
plus the completion marker line — to exactly
`{cells := "1234", area := "56789", wns := "-0.05", duration := "12.3s",
status := "completed"}`; an interleaved unmatched line changes nothing and
the never-matched `instances` field stays absent. -/
theorem parseDesignStats_roundtrip :
    parseDesignStats
        "Cells: 1234\nArea: 56789\nWNS: -0.05\nDuration: 12.3s\nFlow completed successfully" =
      { cells := some "1234", area := some "56789", wns := some "-0.05",
        instances := none, duration := some "12.3s", status := some "completed" } ∧
    parseDesignStats
        "Cells: 1234\nArea: 56789\nWNS: -0.05\nsome unmatched line\nDuration: 12.3s\nFlow completed successfully" =
      { cells := some "1234", area := some "56789", wns := some "-0.05",
        instances := none, duration := some "12.3s", status := some "completed" } := by
  decide

/-- Claim C8: the launcher's remote actions happen in exactly this order:
first one command that creates `jobDir/output` (and so `jobDir`) and
writes the metadata record with the start timestamp and state `"running"`;
then the detached spawn of the wrapped command; then the write of the
spawned pid to `jobDir/pid`.  Hence after the first action — before the
wrapped command runs — the job's output directory exists in any starting
remote filesystem. -/
theorem startBackgroundJob_ordering (now : Int) (jobDir cmd : String)
    (meta : List (String × String)) (pid : String) (st0 : RemoteDirState) :
    (startBackgroundJob now jobDir cmd meta pid).1 =
      [LaunchAction.ensureDirAndWriteMeta jobDir meta now "running",
       LaunchAction.spawnDetached jobDir cmd,
       LaunchAction.writePidFile jobDir pid] ∧
    (jobDir ++ "/output") ∈
      (applyLaunchTrace st0 ((startBackgroundJob now jobDir cmd meta pid).1.take 1)).dirs ∧
    (jobDir ∈
      (applyLaunchTrace st0 ((startBackgroundJob now jobDir cmd meta pid).1.take 1)).dirs) ∧
    (startBackgroundJob now jobDir cmd meta pid).2 = (jobIdOf jobDir, jobDir) := by
  refine ⟨rfl, ?_, ?_, rfl⟩ <;>
    simp [startBackgroundJob, applyLaunchTrace, applyLaunchAction]

/-- Claim C9: credential resolution tries, in this order, the
base64-encoded key, the raw key string, and the key file at the configured
(or default) path; each earlier source, when truthy, wins regardless of
the later ones, and when no source resolves the call fails with an
authentication error naming the key file. -/
theorem getSSHKey_resolution (decodeB64 : String → String)
    (readFile : String → Option String) (env : SSHEnv) :
    (∀ s, envTruthy env.sshPrivateKeyB64 = some s →
      getSSHKey decodeB64 readFile env = Except.ok (decodeB64 s)) ∧
    (envTruthy env.sshPrivateKeyB64 = none →
      ∀ s, envTruthy env.sshPrivateKey = some s →
        getSSHKey decodeB64 readFile env = Except.ok s) ∧
    (envTruthy env.sshPrivateKeyB64 = none → envTruthy env.sshPrivateKey = none →
      ∀ content,
        readFile ((envTruthy env.sshKeyPath).getD "/Users/yeabsirateshome/.ssh/Zyphar.pem")
          = some content →
        getSSHKey decodeB64 readFile env = Except.ok content) ∧
    (envTruthy env.sshPrivateKeyB64 = none → envTruthy env.sshPrivateKey = none →
      readFile ((envTruthy env.sshKeyPath).getD "/Users/yeabsirateshome/.ssh/Zyphar.pem")
        = none →
      getSSHKey decodeB64 readFile env =
        Except.error (AuthError.keyFileUnreadable
          ((envTruthy env.sshKeyPath).getD "/Users/yeabsirateshome/.ssh/Zyphar.pem"))) := by
  refine ⟨?_, ?_, ?_, ?_⟩
  · intro s h; simp [getSSHKey, h]
  · intro h1 s h2; simp [getSSHKey, h1, h2]
  · intro h1 h2 content h3; simp [getSSHKey, h1, h2, h3]
  · intro h1 h2 h3; simp [getSSHKey, h1, h2, h3]

/-- Witness for C9: with no environment keys and an unreadable key file
the resolution fails naming the default path; with the base64 variable set
it succeeds through the decoder. -/
theorem getSSHKey_resolution_witness :
    getSSHKey (fun s => "decoded:" ++ s) (fun _ => none) ({} : SSHEnv) =
      Except.error (AuthError.keyFileUnreadable "/Users/yeabsirateshome/.ssh/Zyphar.pem") ∧
    getSSHKey (fun s => "decoded:" ++ s) (fun _ => none)
        ({ sshPrivateKeyB64 := some "KEY64" } : SSHEnv) =
      Except.ok "decoded:KEY64" := by
  constructor
  · exact (getSSHKey_resolution (fun s => "decoded:" ++ s) (fun _ => none) ({} : SSHEnv)).2.2.2
      rfl rfl rfl
  · exact (getSSHKey_resolution (fun s => "decoded:" ++ s) (fun _ => none)
      ({ sshPrivateKeyB64 := some "KEY64" } : SSHEnv)).1 "KEY64" (by decide)

/-- Claim C10: when several lines of the log match one field's prefix
pattern, the parser assigns that field the value extracted from the last
such line — each later match overwrites the earlier ones. -/
theorem parser_last_match_wins (f : StatField) (output : String)
    (pre post : List String) (line : String)
    (hsplit : jsSplit '\n' output = pre ++ line :: post)
    (hmatch : fieldMatches f line = true)
    (hpost : ∀ l ∈ post, fieldMatches f l = false) :
    getField (parseDesignStats output) f = some (fieldValue f line) := by
  unfold parseDesignStats parseDesignStatsLines
  rw [hsplit, List.foldl_append, List.foldl_cons]
  rw [getField_foldl_of_no_match f post hpost]
  exact getField_parseLine_of_match f _ line hmatch

/-- Witness for C10: in a log with two `Cells:` lines the later one wins. -/
theorem parser_last_match_wins_witness :
    getField (parseDesignStats "Cells: 11\nCells: 22\nArea: 3") StatField.cells =
      some (fieldValue StatField.cells "Cells: 22") :=
  parser_last_match_wins StatField.cells "Cells: 11\nCells: 22\nArea: 3"
    ["Cells: 11"] ["Area: 3"] "Cells: 22" (by decide) (by decide) (by decide)

end Zyphar
